import Mathlib

/-!
Shallow embedding of the three teaching programs of this repository:
a card-deck generator (`Deck`), a toy bank ledger (`Account`/`Bank`),
and a media catalog enum (`Media`), together with theorems settling the
specification claims about them.
-/

namespace Spec2Proof

/-! ## Deck (src/Section-I/deck/src/main.rs) -/

/-- The fixed suit list of `Deck::new`. -/
def suits : List String := ["hearts", "spades", "clubs", "diamonds"]

/-- The fixed value list of `Deck::new`. -/
def values : List String :=
  ["ace", "two", "three", "four", "five", "six", "seven", "eight", "nine",
   "ten", "jack", "queen", "king"]

/-- `struct Deck { cards: Vec<String> }`. -/
structure Deck where
  cards : List String
  deriving Repr, DecidableEq

/-- `Deck::new`: the nested `for suit in suits { for value in values { cards.push(...) } }`
loops, embedded as folds that append each `format!("{} of {}", value, suit)` card. -/
def Deck.new : Deck :=
  let cards := suits.foldl (fun cards suit =>
    values.foldl (fun cards value => cards ++ [value ++ " of " ++ suit]) cards) []
  ⟨cards⟩

/-- `Deck::deal`: `self.cards.split_off(self.cards.len() - num_card)`.
When `num_card > len`, the `usize` subtraction (and the `split_off` index)
is out of bounds and the program panics; the panic is modelled as `none`.
Otherwise the deck keeps the first `len - num_card` cards and the suffix is
returned. -/
def Deck.deal (d : Deck) (num_card : Nat) : Option (Deck × List String) :=
  if num_card ≤ d.cards.length then
    some (⟨d.cards.take (d.cards.length - num_card)⟩,
          d.cards.drop (d.cards.length - num_card))
  else
    none

/-- Modelled from the spec: `Deck::shuffle` calls `self.cards.shuffle(&mut rng)`
from the external `rand` crate, whose implementation is not part of this
repository. The spec describes it as an in-place uniformly random shuffle
algorithm; it is modelled as a Fisher–Yates shuffle driven by an explicit
stream `r` of random draws (each draw is reduced modulo the number of cards
still unplaced). The `fuel` argument makes the recursion structural. -/
def shuffleAux : Nat → List String → List Nat → List String
  | 0, l, _ => l
  | _ + 1, [], _ => []
  | fuel + 1, x :: xs, r =>
      let l := x :: xs
      let j := r.headD 0 % l.length
      l.getD j x :: shuffleAux fuel (l.eraseIdx j) r.tail

/-- Modelled from the spec: `Deck::shuffle`, with the random source made
explicit as a list of draws. -/
def Deck.shuffle (d : Deck) (r : List Nat) : Deck :=
  ⟨shuffleAux d.cards.length d.cards r⟩

/-! ## Bank (src/Section-II/bank/src/main.rs)

Balances are `i32` in the source; they are embedded as `Int` (the programs
stay far from the `i32` range, and the spec's data model is a plain integer
balance). -/

/-- `struct Account { id: u32, balance: i32, holder: String }`. -/
structure Account where
  id : Nat
  balance : Int
  holder : String
  deriving Repr, DecidableEq

/-- `Account::new`: balance initialized to 0. -/
def Account.new (id : Nat) (holder : String) : Account :=
  { id := id, balance := 0, holder := holder }

/-- `Account::deposit`: `self.balance += amount; self.balance`.
Returns the mutated account together with the returned balance. -/
def Account.deposit (a : Account) (amount : Int) : Account × Int :=
  let a := { a with balance := a.balance + amount }
  (a, a.balance)

/-- `Account::withdraw`: on `self.balance >= amount` the balance is
decremented and returned; otherwise an insufficient-funds notice is printed
and the unchanged balance is returned. The result is the mutated account,
the returned balance, and whether the notice was printed. -/
def Account.withdraw (a : Account) (amount : Int) : Account × Int × Bool :=
  if a.balance ≥ amount then
    let a := { a with balance := a.balance - amount }
    (a, a.balance, false)
  else
    (a, a.balance, true)

/-- `Account::summary`:
`format!("Account {}: Holder: {}, Balance: {}", self.id, self.holder, self.balance)`. -/
def Account.summary (a : Account) : String :=
  "Account " ++ toString a.id ++ ": Holder: " ++ a.holder ++
    ", Balance: " ++ toString a.balance

/-- `struct Bank { account: Vec<Account> }`. -/
structure Bank where
  account : List Account
  deriving Repr, DecidableEq

/-- `Bank::new`: empty account vector. -/
def Bank.new : Bank := ⟨[]⟩

/-- `Bank::add_account`: `self.account.push(account)`. -/
def Bank.add_account (b : Bank) (a : Account) : Bank :=
  ⟨b.account ++ [a]⟩

/-- `Bank::total_balance`: `self.account.iter().map(|acc| acc.balance).sum()`. -/
def Bank.total_balance (b : Bank) : Int :=
  (b.account.map Account.balance).sum

/-- `Bank::summary`: `self.account.iter().map(|acc| acc.summary()).collect()`. -/
def Bank.summary (b : Bank) : List String :=
  b.account.map Account.summary

/-- The `account1` of the bank program's `main`: fresh account 1 "Alice",
deposit 1000, withdraw 400 (balance 600). -/
def account1 : Account :=
  (((Account.new 1 "Alice").deposit 1000).1.withdraw 400).1

/-- The `account2` of the bank program's `main`: fresh account 2 "Bob",
deposit 2000, withdraw 250 (balance 1750). -/
def account2 : Account :=
  (((Account.new 2 "Bob").deposit 2000).1.withdraw 250).1

/-- One account operation, for stating the balance invariant over
arbitrary call sequences. -/
inductive AccountOp where
  | deposit (amount : Int)
  | withdraw (amount : Int)
  deriving Repr, DecidableEq

/-- Run a sequence of deposit/withdraw calls on an account, discarding the
returned balances (as `main` does). -/
def Account.run (a : Account) : List AccountOp → Account
  | [] => a
  | AccountOp.deposit amt :: ops => ((a.deposit amt).1).run ops
  | AccountOp.withdraw amt :: ops => ((a.withdraw amt).1).run ops

/-! ## Media (src/Section-III/catalogmedia/src/main.rs) -/

/-- `enum Media { Book { title, author }, Movie { title, director },
Audiobook { title } }`. -/
inductive Media where
  | book (title author : String)
  | movie (title director : String)
  | audiobook (title : String)
  deriving Repr, DecidableEq

/-- `print_media` renders its argument with the derived `Debug`
implementation (`{:#?}`), which emits the variant tag followed by each
field name and its value. The rendering is embedded structurally as the
pair (variant tag, field name/value list) that `Debug` prints. -/
def print_media : Media → String × List (String × String)
  | Media.book title author => ("Book", [("title", title), ("author", author)])
  | Media.movie title director => ("Movie", [("title", title), ("director", director)])
  | Media.audiobook title => ("Audiobook", [("title", title)])

/-! ## Helper lemmas -/

/-- Moving the element at a valid index to the front of the remainder is a
permutation of the original list. -/
theorem perm_cons_eraseIdx {α : Type} (l : List α) (j : Nat) (h : j < l.length) :
    (l[j] :: l.eraseIdx j).Perm l := by
  conv_rhs => rw [← List.take_append_drop j l]
  rw [List.eraseIdx_eq_take_drop_succ, List.drop_eq_getElem_cons h]
  exact List.perm_middle.symm

/-- The Fisher–Yates loop body permutes its input, whatever the fuel and
random draws. -/
theorem shuffleAux_perm (fuel : Nat) (l : List String) (r : List Nat) :
    (shuffleAux fuel l r).Perm l := by
  induction fuel generalizing l r with
  | zero => exact List.Perm.refl l
  | succ fuel ih =>
    cases l with
    | nil => exact List.Perm.refl []
    | cons x xs =>
      rw [shuffleAux]
      have hj : r.headD 0 % (x :: xs).length < (x :: xs).length :=
        Nat.mod_lt _ (by simp)
      rw [List.getD_eq_getElem (x :: xs) x hj]
      exact ((ih _ _).cons _).trans (perm_cons_eraseIdx _ _ hj)

/-- Running operations on an account whose balance is non-negative keeps the
balance non-negative, provided every deposited amount is non-negative. -/
theorem run_balance_nonneg (acc : Account) (ops : List AccountOp)
    (h0 : 0 ≤ acc.balance)
    (h : ∀ amt, AccountOp.deposit amt ∈ ops → 0 ≤ amt) :
    0 ≤ (acc.run ops).balance := by
  induction ops generalizing acc with
  | nil => exact h0
  | cons op ops ih =>
    cases op with
    | deposit amt =>
      have hamt : 0 ≤ amt := h amt (List.mem_cons_self _ _)
      rw [Account.run]
      refine ih _ ?_ fun a ha => h a (List.mem_cons_of_mem _ ha)
      simp only [Account.deposit]
      omega
    | withdraw amt =>
      rw [Account.run]
      refine ih _ ?_ fun a ha => h a (List.mem_cons_of_mem _ ha)
      by_cases hc : acc.balance ≥ amt
      · simp only [Account.withdraw, if_pos hc]
        omega
      · simp only [Account.withdraw, if_neg hc]
        exact h0

/-! ## Claims -/

/-- C1: withdraw with `a > b` leaves the balance at `b`, returns `b`, and
only prints a notice (the third component `true`; the call is total and
returns normally, no escalated error); withdraw with `a <= b` leaves the
balance at `b - a` and returns `b - a` (with no notice). -/
theorem claim_C1 (acc : Account) (a : Int) :
    (a > acc.balance →
      (acc.withdraw a).1.balance = acc.balance ∧
      (acc.withdraw a).2.1 = acc.balance ∧
      (acc.withdraw a).2.2 = true) ∧
    (a ≤ acc.balance →
      (acc.withdraw a).1.balance = acc.balance - a ∧
      (acc.withdraw a).2.1 = acc.balance - a ∧
      (acc.withdraw a).2.2 = false) := by
  constructor
  · intro h
    have hc : ¬ acc.balance ≥ a := by omega
    simp [Account.withdraw, hc]
  · intro h
    have hc : acc.balance ≥ a := h
    simp [Account.withdraw, hc]

/-- Witness for C1 at balance 3: withdrawing 5 is refused with a notice and
the balance stays 3; withdrawing 2 succeeds leaving balance 1. -/
theorem claim_C1_witness :
    ((Account.mk 1 3 "A").withdraw 5).1.balance = 3 ∧
    ((Account.mk 1 3 "A").withdraw 5).2.2 = true ∧
    ((Account.mk 1 3 "A").withdraw 2).1.balance = 1 := by
  have h1 := (claim_C1 (Account.mk 1 3 "A") 5).1 (by decide)
  have h2 := (claim_C1 (Account.mk 1 3 "A") 2).2 (by decide)
  refine ⟨h1.1, h1.2.2, ?_⟩
  rw [h2.1]
  decide

/-- C2 as stated is false: deposit performs no validation, so depositing a
negative amount drives a fresh account's balance below zero. -/
theorem claim_C2_counterexample :
    ((Account.new 1 "Alice").run [AccountOp.deposit (-1)]).balance < 0 := by
  decide

/-- C2 (amended): for every account created by `Account::new` and every
sequence of deposit and withdraw operations in which each deposited amount
is non-negative, the balance never goes negative; moreover withdrawals
exceeding the balance are rejected and leave the balance unchanged. -/
theorem claim_C2 (id : Nat) (holder : String) (ops : List AccountOp)
    (h : ∀ amt, AccountOp.deposit amt ∈ ops → 0 ≤ amt) :
    0 ≤ ((Account.new id holder).run ops).balance ∧
    ∀ (acc : Account) (a : Int), acc.balance < a →
      (acc.withdraw a).1.balance = acc.balance := by
  constructor
  · exact run_balance_nonneg _ _ (by simp [Account.new]) h
  · intro acc a ha
    have hc : ¬ acc.balance ≥ a := by omega
    simp [Account.withdraw, hc]

/-- Witness for C2: the spec's example scenario (deposit 1000, withdraw 400,
then an excessive withdraw 1000) keeps the balance non-negative. -/
theorem claim_C2_witness :
    0 ≤ ((Account.new 1 "Alice").run
      [AccountOp.deposit 1000, AccountOp.withdraw 400,
       AccountOp.withdraw 1000]).balance :=
  (claim_C2 1 "Alice"
    [AccountOp.deposit 1000, AccountOp.withdraw 400, AccountOp.withdraw 1000]
    (by intro amt hm; simp at hm; omega)).1

/-- C7: deposit of a non-negative amount increases the balance by exactly
that amount and returns the new balance (the code validates nothing and
adds unconditionally). -/
theorem claim_C7 (acc : Account) (amount : Int) (h : 0 ≤ amount) :
    (acc.deposit amount).1.balance = acc.balance + amount ∧
    (acc.deposit amount).2 = acc.balance + amount := by
  exact ⟨rfl, rfl⟩

/-- Witness for C7: depositing 1000 into a fresh account yields balance
0 + 1000. -/
theorem claim_C7_witness :
    ((Account.new 1 "Alice").deposit 1000).1.balance = 0 + 1000 ∧
    ((Account.new 1 "Alice").deposit 1000).2 = 0 + 1000 :=
  claim_C7 (Account.new 1 "Alice") 1000 (by decide)

/-- C10 as stated is false: with balance -30 (reachable by depositing -30)
and amount -20, the guard `balance >= amount` fails, so the notice branch
runs and the balance stays -30 instead of becoming -10. -/
theorem claim_C10_counterexample :
    ((((Account.new 1 "A").deposit (-30)).1.withdraw (-20)).2.2 = true) ∧
    ((((Account.new 1 "A").deposit (-30)).1.withdraw (-20)).1.balance = -30) := by
  decide

/-- C10 (amended): for every account with balance `b` and every negative
amount `a` with `a ≤ b`, withdraw takes the success branch: the balance
becomes `b - a` (strictly larger than `b`), that value is returned, and no
insufficient-funds notice is emitted. -/
theorem claim_C10 (acc : Account) (a : Int) (hneg : a < 0)
    (hle : a ≤ acc.balance) :
    (acc.withdraw a).1.balance = acc.balance - a ∧
    acc.balance < (acc.withdraw a).1.balance ∧
    (acc.withdraw a).2.1 = acc.balance - a ∧
    (acc.withdraw a).2.2 = false := by
  have hc : acc.balance ≥ a := hle
  refine ⟨?_, ?_, ?_, ?_⟩ <;> simp [Account.withdraw, hc]
  omega

/-- Witness for C10: withdrawing -5 from a fresh account (balance 0)
succeeds and raises the balance to 0 - (-5) = 5. -/
theorem claim_C10_witness :
    ((Account.new 2 "Bob").withdraw (-5)).1.balance = 0 - (-5) ∧
    (0 : Int) < ((Account.new 2 "Bob").withdraw (-5)).1.balance ∧
    ((Account.new 2 "Bob").withdraw (-5)).2.1 = 0 - (-5) ∧
    ((Account.new 2 "Bob").withdraw (-5)).2.2 = false :=
  claim_C10 (Account.new 2 "Bob") (-5) (by decide) (by decide)

/-- C3: for `n ≤` deck size, `deal n` succeeds, returns exactly the last
`n` cards in their original relative order (the deck is the returned suffix
appended to what remains), and shrinks the deck to its first `size - n`
cards. -/
theorem claim_C3 (d : Deck) (n : Nat) (h : n ≤ d.cards.length) :
    ∃ d₂ ret, d.deal n = some (d₂, ret) ∧
      ret.length = n ∧
      d₂.cards.length = d.cards.length - n ∧
      d.cards = d₂.cards ++ ret ∧
      d₂.cards = d.cards.take (d.cards.length - n) ∧
      ret = d.cards.drop (d.cards.length - n) := by
  have hd : d.deal n =
      some (⟨d.cards.take (d.cards.length - n)⟩,
            d.cards.drop (d.cards.length - n)) := by
    simp [Deck.deal, h]
  refine ⟨_, _, hd, ?_, ?_, ?_, rfl, rfl⟩
  · rw [List.length_drop]
    omega
  · rw [List.length_take]
    omega
  · exact (List.take_append_drop _ _).symm

/-- Witness for C3: dealing 5 from a fresh 52-card deck succeeds. -/
theorem claim_C3_witness : (Deck.new.deal 5).isSome = true := by
  obtain ⟨d₂, ret, hd, -⟩ := claim_C3 Deck.new 5 (by decide)
  rw [hd]
  rfl

/-- C4: dealing more cards than remain is modelled as the fatal `none`
(the source's out-of-bounds panic, never a silent truncation); in
particular `deal 52` on a fresh deck succeeds and a subsequent `deal 1`
fatally rejects; and under the precondition `n ≤` deck size, `deal` always
succeeds. -/
theorem claim_C4 :
    (∀ (d : Deck) (n : Nat), d.cards.length < n → d.deal n = none) ∧
    (∃ p, Deck.new.deal 52 = some p ∧ p.1.deal 1 = none) ∧
    (∀ (d : Deck) (n : Nat), n ≤ d.cards.length → (d.deal n).isSome = true) := by
  refine ⟨?_, ?_, ?_⟩
  · intro d n h
    have hc : ¬ n ≤ d.cards.length := by omega
    simp [Deck.deal, hc]
  · exact ⟨(⟨[]⟩, Deck.new.cards), by decide, by decide⟩
  · intro d n h
    simp [Deck.deal, h]

/-- Witness for C4: dealing 53 from a fresh 52-card deck is the fatal
`none`, and dealing 52 is not. -/
theorem claim_C4_witness :
    Deck.new.deal 53 = none ∧ (Deck.new.deal 52).isSome = true :=
  ⟨claim_C4.1 Deck.new 53 (by decide), claim_C4.2.2 Deck.new 52 (by decide)⟩

/-- C5: a fresh deck has exactly 52 cards, no duplicates, and is precisely
the suit-major, value-minor cross product of the 4 suits and 13 values,
each card the string `value ++ " of " ++ suit`; `Deck.new` is a constant,
so creation is deterministic with no failure mode. -/
theorem claim_C5 :
    Deck.new.cards.length = 52 ∧
    Deck.new.cards.Nodup ∧
    Deck.new.cards =
      suits.flatMap (fun suit =>
        values.map (fun value => value ++ " of " ++ suit)) := by
  refine ⟨by decide, by decide, by decide⟩

/-- C6: shuffling only permutes the cards: whatever the random draws, the
multiset of cards is unchanged and the deck size is unchanged. -/
theorem claim_C6 (d : Deck) (r : List Nat) :
    ((d.shuffle r).cards : Multiset String) = (d.cards : Multiset String) ∧
    (d.shuffle r).cards.length = d.cards.length := by
  have h : (Deck.shuffle d r).cards.Perm d.cards :=
    shuffleAux_perm d.cards.length d.cards r
  exact ⟨Multiset.coe_eq_coe.mpr h, h.length_eq⟩

/-- C8: the total balance of a bank is the sum of its members' balances
(zero when empty, and adding an account adds exactly its balance), summary
produces one string per account in insertion order, each equal to that
account's own summary; concretely, the bank of `main` with balances
[600, 1750] totals 2350 and its summaries are the two accounts' summary
strings. -/
theorem claim_C8 :
    (Bank.new.total_balance = 0 ∧
     ∀ (b : Bank) (a : Account),
       (b.add_account a).total_balance = b.total_balance + a.balance) ∧
    (Bank.new.summary = [] ∧
     ∀ (b : Bank) (a : Account),
       (b.add_account a).summary = b.summary ++ [a.summary]) ∧
    ((Bank.new.add_account account1).add_account account2).total_balance
      = 2350 ∧
    ((Bank.new.add_account account1).add_account account2).summary
      = [account1.summary, account2.summary] ∧
    account1.summary = "Account 1: Holder: Alice, Balance: 600" ∧
    account2.summary = "Account 2: Holder: Bob, Balance: 1750" := by
  refine ⟨⟨rfl, ?_⟩, ⟨rfl, ?_⟩, by decide, by decide, by decide, by decide⟩
  · intro b a
    simp [Bank.total_balance, Bank.add_account]
  · intro b a
    simp [Bank.summary, Bank.add_account]

/-- C9: each Media variant renders (via the derived Debug structure that
`print_media` emits) its own tag with exactly its provided fields, and the
rendering is injective: no field is lost and no value leaks across
variants. -/
theorem claim_C9 :
    (∀ title author, print_media (Media.book title author) =
        ("Book", [("title", title), ("author", author)])) ∧
    (∀ title director, print_media (Media.movie title director) =
        ("Movie", [("title", title), ("director", director)])) ∧
    (∀ title, print_media (Media.audiobook title) =
        ("Audiobook", [("title", title)])) ∧
    (∀ m₁ m₂ : Media, print_media m₁ = print_media m₂ → m₁ = m₂) := by
  refine ⟨fun _ _ => rfl, fun _ _ => rfl, fun _ => rfl, ?_⟩
  intro m₁ m₂ h
  cases m₁ <;> cases m₂ <;> simp_all [print_media]

/-- Witness for C9: the `main` program's book renders with tag "Book" and
both fields, and rendering equality at a concrete audiobook yields equality
of the values. -/
theorem claim_C9_witness :
    print_media (Media.book "Bad Book" "Unknown") =
      ("Book", [("title", "Bad Book"), ("author", "Unknown")]) ∧
    Media.audiobook "Cool Audiobook" = Media.audiobook "Cool Audiobook" :=
  ⟨claim_C9.1 "Bad Book" "Unknown",
   claim_C9.2.2.2 (Media.audiobook "Cool Audiobook")
     (Media.audiobook "Cool Audiobook") rfl⟩

end Spec2Proof
